import Mathlib

/-!
Verification of the epigenetic-gol kernel against its specification.

The repository's visible source is the host-language binding layer
(`src/kernel/python_module.cc`); the engine implementation it binds
(environment.h, gol_simulation.h, phenotype_program.h, reproduction.h,
selection.h, simulator.h) is not part of the visible sources.  Definitions
taken from the binding layer are embedded directly from that file; the
engine's operations are modelled from the specification, as marked in each
doc comment.  The world side length `W`, step count `K` (NUM_STEPS) and
stamp side `S` (STAMP_SIZE) are compile-time constants of the engine whose
values are not visible, so the embedding is parametric in them.
-/

namespace EpigeneticGol

/-- The `Cell` enum exposed by the binding layer: binary alive/dead. -/
inductive Cell where
  | ALIVE
  | DEAD
deriving DecidableEq, Repr, Inhabited

open Cell

/-- A `Frame` is a `W × W` square grid of `Cell` (spec section 3). -/
def Frame (W : Nat) : Type := Fin W → Fin W → Cell

instance (W : Nat) : DecidableEq (Frame W) := by
  unfold Frame; infer_instance

/-- The all-dead frame. -/
def deadFrame (W : Nat) : Frame W := fun _ _ => DEAD

instance (W : Nat) : Inhabited (Frame W) := ⟨deadFrame W⟩

/-- The eight neighbor offsets of a cell in the Moore neighborhood. -/
def neighborOffsets : List (Int × Int) :=
  [(-1, -1), (-1, 0), (-1, 1), (0, -1), (0, 1), (1, -1), (1, 0), (1, 1)]

/-- Read a frame at integer coordinates; out-of-range coordinates read
as DEAD.  Modelled from the spec: the Game-of-Life boundary policy is an
open question there (spec section 9); a fixed dead border is chosen and
documented here. -/
def getCell {W : Nat} (f : Frame W) (i j : Int) : Cell :=
  if h : 0 ≤ i ∧ i < (W : Int) ∧ 0 ≤ j ∧ j < (W : Int) then
    f ⟨i.toNat, by omega⟩ ⟨j.toNat, by omega⟩
  else DEAD

/-- Number of ALIVE neighbors of cell `(i, j)` of frame `f`. -/
def countNeighbors {W : Nat} (f : Frame W) (i j : Fin W) : Nat :=
  (neighborOffsets.filter
    (fun d => getCell f ((i : Int) + d.1) ((j : Int) + d.2) = ALIVE)).length

/-- Modelled from the spec: the Game-of-Life stepper `step` of
gol_simulation.h, which is not among the visible sources.  One synchronous
Game-of-Life update (spec section 4.2): every cell of the result is a
function of the unmodified input frame `f` only. -/
def step {W : Nat} (f : Frame W) : Frame W := fun i j =>
  let n := countNeighbors f i j
  match f i j with
  | ALIVE => if n = 2 ∨ n = 3 then ALIVE else DEAD
  | DEAD => if n = 3 then ALIVE else DEAD

/-- Modelled from the spec: the frame-sequence simulator of
gol_simulation.h (not among the visible sources).  `simulateSeq k f` is the
`k`-frame trajectory whose index 0 is `f` itself and whose each subsequent
frame is one `step` applied to the previous (spec section 4.2). -/
def simulateSeq {W : Nat} : Nat → Frame W → List (Frame W)
  | 0, _ => []
  | k + 1, f => f :: simulateSeq k (step f)

/-- The free function `simulate_phenotype` of the binding layer
(python_module.cc line 87): returns the NUM_STEPS-frame trajectory of the
given frame; the step count `K` stands for the engine constant NUM_STEPS. -/
def simulate_phenotype {W : Nat} (K : Nat) (f : Frame W) : List (Frame W) :=
  simulateSeq K f

theorem simulateSeq_length {W : Nat} (k : Nat) (f : Frame W) :
    (simulateSeq k f).length = k := by
  induction k generalizing f with
  | zero => rfl
  | succ n ih => simp [simulateSeq, ih]

theorem simulateSeq_get_zero {W : Nat} (k : Nat) (f : Frame W) (h : 0 < k) :
    (simulateSeq k f).get? 0 = some f := by
  cases k with
  | zero => omega
  | succ n => rfl

theorem simulateSeq_get_succ {W : Nat} (k : Nat) (f : Frame W) (i : Nat)
    (h : i + 1 < k) :
    (simulateSeq k f).get? (i + 1) = ((simulateSeq k f).get? i).map step := by
  induction k generalizing f i with
  | zero => omega
  | succ n ih =>
    cases i with
    | zero =>
      cases n with
      | zero => omega
      | succ m => rfl
    | succ m =>
      have hm : m + 1 < n := by omega
      simpa [simulateSeq] using ih (step f) m hm

/-! ## Genotypes and the genetic operators -/

/-- The `Genotype` record exposed by the binding layer (python_module.cc
line 28): a `scalar_genes` part and a `stamp_genes` part.  Modelled from
the spec: genes are bounded numeric values (spec section 3); they are
embedded as naturals. -/
structure Genotype where
  scalar_genes : List Nat
  stamp_genes : List Nat
deriving DecidableEq, Repr, Inhabited

/-- One per-gene-position packet of randomness drawn from the engine's
seeded stream (spec section 4.4): one uniform draw in `[0, 1)` deciding
crossover, one deciding mutation, and a fresh replacement value from the
gene's valid domain.  The range invariant of the uniform draws is carried
in the record. -/
structure GeneDraw where
  crossDraw : ℚ
  mutDraw : ℚ
  freshVal : Nat
  cross_nonneg : 0 ≤ crossDraw
  mut_nonneg : 0 ≤ mutDraw

/-- The per-output-genotype randomness: one `GeneDraw` per scalar gene
position and one per stamp gene position. -/
structure PairRng where
  scalarDraws : Nat → GeneDraw
  stampDraws : Nat → GeneDraw

/-- Modelled from the spec: the per-gene genetic operator of
reproduction.h (not among the visible sources).  With probability
CROSSOVER_RATE (`cr`) take the mate's value instead of the parent's,
otherwise keep the parent's; after crossover, with probability
MUTATION_RATE (`mr`) replace the value with a freshly drawn one
(spec section 4.4). -/
def breedGene (cr mr : ℚ) (p m : Nat) (d : GeneDraw) : Nat :=
  let crossed := if d.crossDraw < cr then m else p
  if d.mutDraw < mr then d.freshVal else crossed

/-- Apply `breedGene` position-wise along one gene list, drawing each
position's randomness from `draws` at consecutive keys starting at `k`;
the mate's list is consumed in lockstep (missing mate positions fall back
to the parent's value). -/
def breedGenes (cr mr : ℚ) (draws : Nat → GeneDraw) :
    List Nat → List Nat → Nat → List Nat
  | [], _, _ => []
  | p :: ps, ms, k =>
      breedGene cr mr p (ms.headD p) (draws k) ::
        breedGenes cr mr draws ps ms.tail (k + 1)

/-- Modelled from the spec: one offspring genotype from a parent and a
mate, scalar and stamp genes treated uniformly and each position
independently (spec section 4.4). -/
def breedGenotype (cr mr : ℚ) (rng : PairRng) (p m : Genotype) : Genotype :=
  { scalar_genes := breedGenes cr mr rng.scalarDraws p.scalar_genes m.scalar_genes 0
    stamp_genes := breedGenes cr mr rng.stampDraws p.stamp_genes m.stamp_genes 0 }

/-- One offspring per `(parent, mate)` index pair, the pair list consumed
in order; `rng i` supplies the `i`-th output's randomness. -/
def breedPairs (cr mr : ℚ) (rng : Nat → PairRng) (g : List Genotype) :
    List (Nat × Nat) → Nat → List Genotype
  | [], _ => []
  | pr :: rest, i =>
      breedGenotype cr mr (rng i) (g.getD pr.1 default) (g.getD pr.2 default) ::
        breedPairs cr mr rng g rest (i + 1)

/-- Modelled from the spec: the engine's `breed_population` of
reproduction.h (not among the visible sources).  One output genotype per
`(parent, mate)` index pair taken from `parent_selections` and
`mate_selections` (spec section 4.4). -/
def breed_population (cr mr : ℚ) (rng : Nat → PairRng) (g : List Genotype)
    (parent_selections mate_selections : List Nat) : List Genotype :=
  breedPairs cr mr rng g (parent_selections.zip mate_selections) 0

/-- A flat numpy-style array of genotypes with a three-dimensional shape
`(species, trials, organisms)`, as handled by the binding layer. -/
structure GenotypeArray3 where
  s : Nat
  t : Nat
  o : Nat
  data : List Genotype
deriving Repr

/-- The `breed_population` binding (python_module.cc lines 112-124): it
calls the engine's `breed_population` on the flat input data and wraps the
resulting buffer in an array of the INPUT array's shape
`(g.s, g.t, g.o)`; element `i` of the output reads position `i` of the
result buffer, which exists only when `i` is below the buffer's length
(reading past it is out of bounds, modelled as `none`). -/
def breed_population_binding (cr mr : ℚ) (rng : Nat → PairRng)
    (g : GenotypeArray3) (parent_selections mate_selections : List Nat) :
    List (Option Genotype) :=
  let buf := breed_population cr mr rng g.data parent_selections mate_selections
  (List.range (g.s * g.t * g.o)).map (fun i => buf.get? i)

theorem breedGene_zero (d : GeneDraw) (p m : Nat) :
    breedGene 0 0 p m d = p := by
  unfold breedGene
  rw [if_neg (not_lt.mpr d.cross_nonneg), if_neg (not_lt.mpr d.mut_nonneg)]

theorem breedGenes_zero (draws : Nat → GeneDraw) (ps ms : List Nat) (k : Nat) :
    breedGenes 0 0 draws ps ms k = ps := by
  induction ps generalizing ms k with
  | nil => rfl
  | cons p rest ih => simp [breedGenes, breedGene_zero, ih]

theorem breedGenotype_zero (rng : PairRng) (p m : Genotype) :
    breedGenotype 0 0 rng p m = p := by
  unfold breedGenotype
  rw [breedGenes_zero, breedGenes_zero]

theorem breedPairs_zero (rng : Nat → PairRng) (g : List Genotype)
    (prs : List (Nat × Nat)) (i : Nat) :
    breedPairs 0 0 rng g prs i = prs.map (fun pr => g.getD pr.1 default) := by
  induction prs generalizing i with
  | nil => rfl
  | cons pr rest ih => simp [breedPairs, breedGenotype_zero, ih]

theorem breedPairs_length (cr mr : ℚ) (rng : Nat → PairRng)
    (g : List Genotype) (prs : List (Nat × Nat)) (i : Nat) :
    (breedPairs cr mr rng g prs i).length = prs.length := by
  induction prs generalizing i with
  | nil => rfl
  | cons pr rest ih => simp [breedPairs, ih]

/-! ## Selection -/

/-- One tournament: draw two candidate indices from the random stream by
reduction modulo the population size and keep the fitter one, so that
selection probability is monotonically non-decreasing in fitness.
Modelled from the spec: the selection strategy of selection.h (not among
the visible sources); the spec fixes only the contract and monotonicity,
naming tournament selection as an admissible choice (spec section 4.5). -/
def tourney (scores : List Nat) (r1 r2 : Nat) : Nat :=
  let n := scores.length
  let c1 := r1 % n
  let c2 := r2 % n
  if scores.getD c1 0 < scores.getD c2 0 then c2 else c1

/-- Modelled from the spec: the free function `select` bound at
python_module.cc line 125 (selection.h is not among the visible sources).
From the fitness scores and the engine's seeded random stream it returns
two equal-length index arrays into the population, one parent and one
mate per population slot (spec section 4.5). -/
def select (scores : List Nat) (stream : Nat → Nat) :
    List Nat × List Nat :=
  let n := scores.length
  ((List.range n).map (fun i => tourney scores (stream (4 * i)) (stream (4 * i + 1))),
   (List.range n).map (fun i => tourney scores (stream (4 * i + 2)) (stream (4 * i + 3))))

theorem tourney_lt (scores : List Nat) (r1 r2 : Nat) (h : 0 < scores.length) :
    tourney scores r1 r2 < scores.length := by
  unfold tourney
  dsimp only
  split
  · exact Nat.mod_lt r2 h
  · exact Nat.mod_lt r1 h

/-! ## Phenotype programs and the rendering interpreter -/

/-- The `BiasMode` enum exposed by the binding layer (python_module.cc
line 168). -/
inductive BiasMode where
  | NONE
  | FIXED_VALUE
  | SIZE
deriving DecidableEq, Repr, Inhabited

/-- The `ScalarArgument` record (python_module.cc line 29): a gene
reference plus a literal bias and a bias mode (spec section 3). -/
structure ScalarArgument where
  gene_index : Nat
  bias : Nat
  bias_mode : BiasMode
deriving DecidableEq, Repr, Inhabited

/-- The `StampArgument` record (python_module.cc line 30): like
`ScalarArgument` but indexing into the stamp gene space. -/
structure StampArgument where
  gene_index : Nat
  bias : Nat
  bias_mode : BiasMode
deriving DecidableEq, Repr, Inhabited

/-- The `TransformType` enum exposed by the binding layer
(python_module.cc line 152). -/
inductive TransformType where
  | NONE
  | ARRAY_1D
  | ARRAY_2D
  | COPY
  | CROP
  | DRAW
  | FLIP
  | MIRROR
  | QUARTER
  | ROTATE
  | SCALE
  | TEST
  | TILE
  | TRANSLATE
  | SIZE
deriving DecidableEq, Repr, Inhabited

/-- The `TransformOperation` record (python_module.cc line 31): a type tag
and an ordered argument list (spec section 3). -/
structure TransformOperation where
  type : TransformType
  args : List ScalarArgument
deriving DecidableEq, Repr, Inhabited

/-- The `ComposeMode` enum exposed by the binding layer (python_module.cc
line 172). -/
inductive ComposeMode where
  | NONE
  | OR
  | XOR
  | AND
  | SIZE
deriving DecidableEq, Repr, Inhabited

/-- The `DrawOperation` record (python_module.cc line 32): a compose mode,
a stamp selector, and the two ordered transform lists (spec section 3). -/
structure DrawOperation where
  compose_mode : ComposeMode
  stamp : StampArgument
  global_transforms : List TransformOperation
  stamp_transforms : List TransformOperation
deriving DecidableEq, Repr, Inhabited

/-- The `PhenotypeProgram` record (python_module.cc line 34): an ordered
list of draw operations (spec section 3). -/
structure PhenotypeProgram where
  draw_ops : List DrawOperation
deriving DecidableEq, Repr, Inhabited

/-- Modelled from the spec: scalar argument decoding of
phenotype_program.h (not among the visible sources).  FIXED_VALUE ignores
the gene and uses the bias literally; otherwise the referenced gene is
decoded and offset by the bias (spec section 3). -/
def decodeScalar (g : Genotype) (a : ScalarArgument) : Nat :=
  match a.bias_mode with
  | BiasMode.FIXED_VALUE => a.bias
  | _ => g.scalar_genes.getD a.gene_index 0 + a.bias

/-- Modelled from the spec: the stamp pattern referenced by a
`StampArgument`, an `S × S` seed pattern read from the genotype's stamp
genes (spec section 3); gene parity decides alive/dead.  FIXED_VALUE uses
the bias as the base offset instead of a decoded gene. -/
def stampPattern (S : Nat) (g : Genotype) (a : StampArgument) :
    Fin S → Fin S → Cell := fun i j =>
  let base :=
    match a.bias_mode with
    | BiasMode.FIXED_VALUE => a.bias
    | _ => g.stamp_genes.getD a.gene_index 0 + a.bias
  if g.stamp_genes.getD (base * (S * S) + (i : Nat) * S + (j : Nat)) 0 % 2 = 1
  then ALIVE else DEAD

/-- Wrap a natural index into a `Fin c`; the inhabitant `i` witnesses
`0 < c`. -/
def wrapIdx {c : Nat} (i : Fin c) (x : Nat) : Fin c :=
  ⟨x % c, Nat.mod_lt x i.pos⟩

/-- Reverse an index within its axis. -/
def revIdx {c : Nat} (i : Fin c) : Fin c :=
  ⟨c - 1 - (i : Nat), by omega⟩

/-- Modelled from the spec: one transform application of the interpreter
of phenotype_program.h (not among the visible sources).  The spec fixes
only the transform vocabulary and that each transform decodes its numeric
parameters (offsets, factors, period) from its arguments, an
unused/identity type being a true no-op (spec section 4.1); the exact
per-type geometry is an implementation choice made concrete here on a
square canvas of side `c`. -/
def applyTransform {c : Nat} (g : Genotype) (t : TransformOperation)
    (pat : Fin c → Fin c → Cell) : Fin c → Fin c → Cell := fun i j =>
  let a1 := decodeScalar g (t.args.getD 0 default)
  let a2 := decodeScalar g (t.args.getD 1 default)
  match t.type with
  | TransformType.TRANSLATE =>
      pat (wrapIdx i ((i : Nat) + (c - a1 % c))) (wrapIdx j ((j : Nat) + (c - a2 % c)))
  | TransformType.FLIP => pat (revIdx i) j
  | TransformType.MIRROR => pat i (revIdx j)
  | TransformType.ROTATE => pat j (revIdx i)
  | TransformType.CROP =>
      if (i : Nat) < a1 ∧ (j : Nat) < a2 then pat i j else DEAD
  | TransformType.SCALE =>
      pat (wrapIdx i ((i : Nat) / max 1 a1)) (wrapIdx j ((j : Nat) / max 1 a1))
  | TransformType.TILE =>
      pat (wrapIdx i ((i : Nat) % max 1 a1)) (wrapIdx j ((j : Nat) % max 1 a1))
  | TransformType.ARRAY_1D => pat i (wrapIdx j ((j : Nat) % max 1 a1))
  | TransformType.ARRAY_2D =>
      pat (wrapIdx i ((i : Nat) % max 1 a1)) (wrapIdx j ((j : Nat) % max 1 a2))
  | TransformType.QUARTER =>
      pat (wrapIdx i ((i : Nat) % max 1 (c / 2))) (wrapIdx j ((j : Nat) % max 1 (c / 2)))
  | _ => pat i j

/-- Place an `S × S` stamp pattern at the origin of the `W × W` canvas;
cells outside the stamp are DEAD. -/
def embedStamp (W S : Nat) (pat : Fin S → Fin S → Cell) : Frame W := fun i j =>
  if h : (i : Nat) < S ∧ (j : Nat) < S then pat ⟨i, h.1⟩ ⟨j, h.2⟩ else DEAD

/-- Pointwise merge of a draw operation's contribution into the
accumulating frame (spec section 4.1): NONE overwrites, OR/XOR/AND combine
cell by cell. -/
def composeCell (mode : ComposeMode) (acc contrib : Cell) : Cell :=
  match mode with
  | ComposeMode.OR => if acc = ALIVE ∨ contrib = ALIVE then ALIVE else DEAD
  | ComposeMode.XOR => if (acc = ALIVE) ≠ (contrib = ALIVE) then ALIVE else DEAD
  | ComposeMode.AND => if acc = ALIVE ∧ contrib = ALIVE then ALIVE else DEAD
  | _ => contrib

/-- Modelled from the spec: the contribution of one draw operation
(spec section 4.1): obtain the stamp pattern, apply `stamp_transforms` in
order within the stamp's own canvas, then place it on the full canvas and
apply `global_transforms` in order. -/
def drawContribution (W S : Nat) (g : Genotype) (op : DrawOperation) :
    Frame W :=
  let p0 := stampPattern S g op.stamp
  let p1 := op.stamp_transforms.foldl (fun acc t => applyTransform g t acc) p0
  let placed := embedStamp W S p1
  op.global_transforms.foldl (fun acc t => applyTransform g t acc) placed

/-- Modelled from the spec: the rendering interpreter
`render(program, genotype)` of phenotype_program.h (not among the visible
sources): for each draw operation in program order, merge its contribution
into the accumulating frame with its compose mode (spec section 4.1).
A pure, deterministic, total function. -/
def render (W S : Nat) (p : PhenotypeProgram) (g : Genotype) : Frame W :=
  p.draw_ops.foldl
    (fun acc op => fun i j =>
      composeCell op.compose_mode (acc i j) (drawContribution W S g op i j))
    (deadFrame W)

/-- The free function `render_phenotype` bound at python_module.cc
line 95: it takes only a program.  Modelled from the spec: whether it
renders against an implicit default genotype is an open question there
(spec section 9); the default (all-empty) genotype is chosen. -/
def render_phenotype (W S : Nat) (p : PhenotypeProgram) : Frame W :=
  render W S p default

/-- The free function `simulate_organism` bound at python_module.cc
line 103: render the program against the genotype and return the
NUM_STEPS-frame trajectory of the result. -/
def simulate_organism (W S K : Nat) (p : PhenotypeProgram) (g : Genotype) :
    List (Frame W) :=
  simulateSeq K (render W S p g)

/-! ## Fitness goals and evaluators -/

/-- The `FitnessGoal` enum exposed by the binding layer (python_module.cc
line 126). -/
inductive FitnessGoal where
  | EXPLODE
  | GLIDERS
  | LEFT_TO_RIGHT
  | STILL_LIFE
  | SYMMETRY
  | THREE_CYCLE
  | TWO_CYCLE
deriving DecidableEq, Repr, Inhabited

/-- Number of ALIVE cells of a frame. -/
def liveCount {W : Nat} (f : Frame W) : Nat :=
  ((List.finRange W).map
    (fun i => ((List.finRange W).filter (fun j => f i j = ALIVE)).length)).sum

/-- Number of positions on which two frames agree. -/
def agreeCount {W : Nat} (f g : Frame W) : Nat :=
  ((List.finRange W).map
    (fun i => ((List.finRange W).filter (fun j => f i j = g i j)).length)).sum

/-- Sum of the column indices of the ALIVE cells (a center-of-mass
proxy). -/
def colMass {W : Nat} (f : Frame W) : Nat :=
  ((List.finRange W).map
    (fun i =>
      (((List.finRange W).filter (fun j => f i j = ALIVE)).map
        (fun j => (j : Nat))).sum)).sum

/-- Modelled from the spec: the fitness evaluators of the engine (not
among the visible sources).  The spec fixes only the qualitative reward
direction per goal (spec section 4.3, exact normalization an
implementation choice); a simple monotone-consistent scoring of the
trajectory is made concrete here. -/
def score {W : Nat} (goal : FitnessGoal) (seq : List (Frame W)) : Nat :=
  let first := seq.headD default
  let last := seq.getLastD default
  let prev := (seq.dropLast).getLastD default
  match goal with
  | FitnessGoal.EXPLODE => liveCount last - liveCount first
  | FitnessGoal.GLIDERS => liveCount last + (colMass last - colMass first)
  | FitnessGoal.LEFT_TO_RIGHT => colMass last - colMass first
  | FitnessGoal.STILL_LIFE => agreeCount prev last
  | FitnessGoal.SYMMETRY =>
      agreeCount last (fun i j => last i (revIdx j))
  | FitnessGoal.TWO_CYCLE =>
      agreeCount ((seq.drop (seq.length - 3)).headD default) last
  | FitnessGoal.THREE_CYCLE =>
      agreeCount ((seq.drop (seq.length - 4)).headD default) last

/-! ## The Simulator state machine -/

/-- One deterministic mixing step of the engine's seeded random stream
(spec section 4.6: `seed(value)` resets a deterministic stream).
Modelled from the spec: the concrete generator is not among the visible
sources; any fixed deterministic mixer realizes the contract. -/
def simRand (s k : Nat) : Nat :=
  (s + k + 1) * 2654435761 % 4294967296

/-- Build one gene-position randomness packet from three raw draws of the
stream; the uniform draws are scaled into `[0, 1)`. -/
def mkGeneDraw (a b c : Nat) : GeneDraw :=
  { crossDraw := ((a % 1024 : Nat) : ℚ) / 1024
    mutDraw := ((b % 1024 : Nat) : ℚ) / 1024
    freshVal := c
    cross_nonneg := div_nonneg (Nat.cast_nonneg _) (by norm_num)
    mut_nonneg := div_nonneg (Nat.cast_nonneg _) (by norm_num) }

/-- The per-output randomness used by the simulator when breeding:
every draw is derived deterministically from the stream state `s` and the
output index `i`. -/
def mkPairRng (s i : Nat) : PairRng :=
  { scalarDraws := fun k =>
      mkGeneDraw (simRand s (6 * (i * 4096 + k))) (simRand s (6 * (i * 4096 + k) + 1))
        (simRand s (6 * (i * 4096 + k) + 2))
    stampDraws := fun k =>
      mkGeneDraw (simRand s (6 * (i * 4096 + k) + 3)) (simRand s (6 * (i * 4096 + k) + 4))
        (simRand s (6 * (i * 4096 + k) + 5)) }

/-- Modelled from the spec: a freshly random genotype for population slot
`i`, drawn deterministically from stream state `s` (spec section 4.6:
`populate` initializes every genotype slot with fresh random genes).
`G` and `C` stand for the engine constants NUM_GENES and
STAMP_SIZE * CELLS_PER_STAMP. -/
def randomGenotype (G C s i : Nat) : Genotype :=
  { scalar_genes := (List.range G).map (fun j => simRand s (i * 4096 + j))
    stamp_genes := (List.range C).map (fun j => simRand s (i * 4096 + G + j)) }

/-- Modelled from the spec: the `Simulator` state (spec section 4.6): the
construction-time population counts, the per-species programs, and one
genotype, one last-rendered frame and one last-computed fitness per
population slot, plus the engine's random stream state.  The counts are
machine ints, as in the binding's `py::init<int, int, int>`
(python_module.cc line 36). -/
structure SimState (W : Nat) where
  num_species : Int
  num_trials : Int
  num_organisms : Int
  size : Int
  programs : List PhenotypeProgram
  genotypes : List Genotype
  frames : List (Frame W)
  fitness : List Nat
  rngState : Nat

/-- Modelled from the spec: `Simulator` construction (spec section 4.6):
fails fast when any count is non-positive, otherwise allocates every
buffer at the population size `num_species * num_trials * num_organisms`. -/
def Simulator.construct (W : Nat) (num_species num_trials num_organisms : Int) :
    Except String (SimState W) :=
  if num_species ≤ 0 ∨ num_trials ≤ 0 ∨ num_organisms ≤ 0 then
    Except.error "population counts must be positive"
  else
    let n := (num_species * num_trials * num_organisms).toNat
    Except.ok
      { num_species := num_species
        num_trials := num_trials
        num_organisms := num_organisms
        size := num_species * num_trials * num_organisms
        programs := []
        genotypes := List.replicate n default
        frames := List.replicate n (deadFrame W)
        fitness := List.replicate n 0
        rngState := 0 }

/-- `Simulator.seed` (spec section 4.6): resets the engine's deterministic
random stream.  Modelled from the spec (simulator.h is not among the
visible sources). -/
def Simulator.seed {W : Nat} (v : Nat) (st : SimState W) : SimState W :=
  { st with rngState := v }

/-- Modelled from the spec: `Simulator.populate` (spec section 4.6):
binds one program per species and fills every genotype slot with fresh
random genes from the stream, advancing the stream. -/
def Simulator.populate {W : Nat} (G C : Nat) (programs : List PhenotypeProgram)
    (st : SimState W) : SimState W :=
  { st with
    programs := programs
    genotypes :=
      (List.range st.genotypes.length).map (randomGenotype G C st.rngState)
    rngState := simRand st.rngState 0 }

/-- The species index owning population slot `i` (slots are flat in
species-major order). -/
def speciesOf {W : Nat} (st : SimState W) (i : Nat) : Nat :=
  i / (st.num_trials.toNat * st.num_organisms.toNat)

/-- Modelled from the spec: `Simulator.propagate` (spec section 4.6):
re-renders every organism's frame from its current genotype and its
species' program. -/
def Simulator.propagate {W : Nat} (S : Nat) (st : SimState W) : SimState W :=
  { st with
    frames :=
      (List.range st.genotypes.length).map
        (fun i =>
          render W S (st.programs.getD (speciesOf st i) default)
            (st.genotypes.getD i default)) }

/-- Modelled from the spec: `Simulator.simulate` (spec section 4.6): runs
the life stepper per organism for `K` = NUM_STEPS steps and stores each
trajectory's score against `goal`, discarding the frames after scoring. -/
def Simulator.simulate {W : Nat} (K : Nat) (goal : FitnessGoal)
    (st : SimState W) : SimState W :=
  { st with fitness := st.frames.map (fun f => score goal (simulateSeq K f)) }

/-- Modelled from the spec: `Simulator.simulate_and_record`
(spec section 4.6): like `simulate` but additionally retains and returns
the full per-step frame history of every slot. -/
def Simulator.simulate_and_record {W : Nat} (K : Nat) (goal : FitnessGoal)
    (st : SimState W) : List (List (Frame W)) × SimState W :=
  (st.frames.map (fun f => simulateSeq K f),
   Simulator.simulate K goal st)

/-- Tournament selection within the species/trial group of population
slot `i` (groups are contiguous runs of `o` = num_organisms slots):
two candidates are drawn from the group and the fitter kept, so breeding
never crosses a group boundary (spec sections 4.5 and 4.6). -/
def slotSelect (o : Nat) (fitness : List Nat) (r1 r2 i : Nat) : Nat :=
  if o = 0 then 0
  else
    let base := i / o * o
    let c1 := base + r1 % o
    let c2 := base + r2 % o
    if fitness.getD c1 0 < fitness.getD c2 0 then c2 else c1

/-- Modelled from the spec: one generation of the evolution loop
(spec section 4.6): `propagate`, `simulate` against the goal, then per
species/trial group select parent/mate pairs and breed replacements for
every genotype of the group, advancing the random stream. -/
def generationStep (W S K : Nat) (cr mr : ℚ) (goal : FitnessGoal)
    (st : SimState W) : SimState W :=
  let st2 := Simulator.simulate K goal (Simulator.propagate S st)
  let o := st2.num_organisms.toNat
  let s := st2.rngState
  { st2 with
    genotypes :=
      (List.range st2.genotypes.length).map
        (fun i =>
          let p := slotSelect o st2.fitness (simRand s (8 * i)) (simRand s (8 * i + 1)) i
          let m := slotSelect o st2.fitness (simRand s (8 * i + 2)) (simRand s (8 * i + 3)) i
          breedGenotype cr mr (mkPairRng s i) (st2.genotypes.getD p default)
            (st2.genotypes.getD m default))
    rngState := simRand s 1 }

/-- Iterate `generationStep` a given number of times. -/
def runGenerations (W S K : Nat) (cr mr : ℚ) (goal : FitnessGoal) :
    Nat → SimState W → SimState W
  | 0, st => st
  | n + 1, st =>
      runGenerations W S K cr mr goal n (generationStep W S K cr mr goal st)

/-- Modelled from the spec: `Simulator.evolve` (spec section 4.6):
`populate(programs)` once, then `num_generations` repetitions of the
generation step. -/
def Simulator.evolve {W : Nat} (S K G C : Nat) (cr mr : ℚ)
    (programs : List PhenotypeProgram) (goal : FitnessGoal)
    (num_generations : Nat) (st : SimState W) : SimState W :=
  runGenerations W S K cr mr goal num_generations
    (Simulator.populate G C programs st)

/-! ## The binding layer's array views -/

/-- A numpy-style array descriptor as produced by the binding layer: a
shape of machine-int extents and the flat element data. -/
structure NpArray (α : Type) where
  shape : List Int
  data : List α

/-- The `get_fitness_scores` binding (python_module.cc lines 65-73): an
array shaped by the simulator's `num_species`, `num_trials`,
`num_organisms` fields over the stored fitness buffer. -/
def get_fitness_scores_binding {W : Nat} (st : SimState W) : NpArray Nat :=
  { shape := [st.num_species, st.num_trials, st.num_organisms]
    data := st.fitness }

/-- The `get_genotypes` binding (python_module.cc lines 74-81): an array
shaped by the simulator's count fields over the stored genotype buffer. -/
def get_genotypes_binding {W : Nat} (st : SimState W) : NpArray Genotype :=
  { shape := [st.num_species, st.num_trials, st.num_organisms]
    data := st.genotypes }

/-- Row-major flattening of one frame into cells. -/
def frameCells {W : Nat} (f : Frame W) : List Cell :=
  (List.finRange W).flatMap (fun i => (List.finRange W).map (f i))

/-- The `simulate_and_record` binding (python_module.cc lines 46-55): an
array of `Cell` of shape
`(num_species, num_trials, num_organisms, NUM_STEPS, WORLD_SIZE,
WORLD_SIZE)` over the recorded per-slot frame histories, paired with the
updated simulator state. -/
def simulate_and_record_binding {W : Nat} (K : Nat) (goal : FitnessGoal)
    (st : SimState W) : NpArray Cell × SimState W :=
  let r := Simulator.simulate_and_record K goal st
  ({ shape := [st.num_species, st.num_trials, st.num_organisms,
               (K : Int), (W : Int), (W : Int)]
     data := r.1.flatMap (fun hist => hist.flatMap frameCells) },
   r.2)

/-! ## Purity of the free functions

The binding layer's free functions `render_phenotype`,
`simulate_phenotype` and `simulate_organism` (python_module.cc lines
87-111) call the engine directly.  The only hidden mutable state of the
engine is its seeded random stream (spec section 9); a call is modelled
as a state transformer over that environment, and the spec fixes that
these three functions neither read nor write it (spec section 8). -/

/-- The process-wide hidden mutable state visible to a kernel call. -/
structure KernelEnv where
  rngState : Nat
deriving DecidableEq, Repr

/-- One call of the `render_phenotype` binding as a state transformer. -/
def render_phenotype_call (W S : Nat) (env : KernelEnv)
    (p : PhenotypeProgram) : Frame W × KernelEnv :=
  (render_phenotype W S p, env)

/-- One call of the `simulate_phenotype` binding as a state
transformer. -/
def simulate_phenotype_call (W K : Nat) (env : KernelEnv) (f : Frame W) :
    List (Frame W) × KernelEnv :=
  (simulate_phenotype K f, env)

/-- One call of the `simulate_organism` binding as a state transformer. -/
def simulate_organism_call (W S K : Nat) (env : KernelEnv)
    (p : PhenotypeProgram) (g : Genotype) : List (Frame W) × KernelEnv :=
  (simulate_organism W S K p g, env)

/-! ## Helper lemmas -/

theorem range_map_getQ {α : Type} (l : List α) :
    (List.range l.length).map (fun i => l.get? i) = l.map some := by
  induction l with
  | nil => rfl
  | cons a t ih =>
    rw [List.length_cons, List.range_succ_eq_map, List.map_cons, List.map_map]
    exact congrArg (List.cons (some a)) ih

theorem frameCells_length {W : Nat} (f : Frame W) :
    (frameCells f).length = W * W := by
  rw [frameCells, List.length_flatMap]
  have h1 : List.map (List.length ∘ fun i => (List.finRange W).map (f i))
      (List.finRange W) = List.map (fun _ => W) (List.finRange W) :=
    List.map_congr_left (fun a _ => by simp)
  rw [h1, List.map_const', List.sum_replicate, smul_eq_mul,
    List.length_finRange]

theorem hist_flat_length {W : Nat} (K : Nat) (f : Frame W) :
    ((simulateSeq K f).flatMap frameCells).length = K * (W * W) := by
  rw [List.length_flatMap]
  have h1 : List.map (List.length ∘ frameCells) (simulateSeq K f)
      = List.map (fun _ => W * W) (simulateSeq K f) :=
    List.map_congr_left (fun a _ => frameCells_length a)
  rw [h1, List.map_const', List.sum_replicate, smul_eq_mul, simulateSeq_length]

theorem record_data_length {W : Nat} (K : Nat) (goal : FitnessGoal)
    (st : SimState W) :
    (simulate_and_record_binding K goal st).1.data.length =
      st.frames.length * (K * (W * W)) := by
  show ((st.frames.map (simulateSeq K)).flatMap
      (fun hist => hist.flatMap frameCells)).length = _
  rw [List.length_flatMap, List.map_map]
  have h1 : List.map ((List.length ∘ fun hist => hist.flatMap frameCells) ∘
      simulateSeq K) st.frames = List.map (fun _ => K * (W * W)) st.frames :=
    List.map_congr_left (fun a _ => hist_flat_length K a)
  rw [h1, List.map_const', List.sum_replicate, smul_eq_mul]

/-- The four read-only attributes of the `Simulator`
(python_module.cc lines 83-86). -/
def counts {W : Nat} (st : SimState W) : Int × Int × Int × Int :=
  (st.num_species, st.num_trials, st.num_organisms, st.size)

theorem runGenerations_counts {W : Nat} (S K : Nat) (cr mr : ℚ)
    (goal : FitnessGoal) (n : Nat) (st : SimState W) :
    counts (runGenerations W S K cr mr goal n st) = counts st := by
  induction n generalizing st with
  | zero => rfl
  | succ m ih => exact (ih (generationStep W S K cr mr goal st)).trans rfl

/-- Shared concrete fixtures used by the witness theorems. -/
def testRng : Nat → PairRng :=
  fun _ => ⟨fun _ => mkGeneDraw 0 0 0, fun _ => mkGeneDraw 0 0 0⟩

def gA : Genotype := ⟨[1, 2], [3]⟩

def gB : Genotype := ⟨[4, 5], [6]⟩

def cArr : GenotypeArray3 := ⟨1, 1, 1, [gA]⟩

def wArr : GenotypeArray3 := ⟨1, 1, 2, [gA, gB]⟩

def wSt : SimState 2 :=
  { num_species := 1
    num_trials := 1
    num_organisms := 2
    size := 2
    programs := []
    genotypes := [gA, gB]
    frames := [deadFrame 2, deadFrame 2]
    fitness := [0, 0]
    rngState := 0 }

/-! ## The claims -/

/-- C1: for every frame and every cell position, `step` makes the cell
ALIVE in the next frame iff (it is ALIVE now with 2 or 3 ALIVE neighbors)
or (it is DEAD now with exactly 3 ALIVE neighbors); every cell of
`step f` is computed from the unmodified snapshot `f` alone (synchronous
update). -/
theorem step_alive_iff {W : Nat} (f : Frame W) (i j : Fin W) :
    step f i j = ALIVE ↔
      (f i j = ALIVE ∧
        (countNeighbors f i j = 2 ∨ countNeighbors f i j = 3)) ∨
      (f i j = DEAD ∧ countNeighbors f i j = 3) := by
  unfold step
  cases h : f i j <;> simp only [h] <;> split <;> simp_all

/-- C2: for every frame `f`, `simulate_phenotype f` has exactly NUM_STEPS
(`K`) frames, its element 0 is `f` itself, and each subsequent element is
one `step` applied to the previous one. -/
theorem simulate_phenotype_spec {W : Nat} (K : Nat) (f : Frame W) :
    (simulate_phenotype K f).length = K ∧
    (0 < K → (simulate_phenotype K f).get? 0 = some f) ∧
    (∀ i, i + 1 < K →
      (simulate_phenotype K f).get? (i + 1) =
        ((simulate_phenotype K f).get? i).map step) := by
  refine ⟨simulateSeq_length K f, fun h => simulateSeq_get_zero K f h,
    fun i h => simulateSeq_get_succ K f i h⟩

theorem simulate_phenotype_spec_witness :
    (0 < 3 → (simulate_phenotype 3 (deadFrame 2)).get? 0 =
      some (deadFrame 2)) ∧
    (simulate_phenotype 3 (deadFrame 2)).get? 1 =
      ((simulate_phenotype 3 (deadFrame 2)).get? 0).map step :=
  ⟨(simulate_phenotype_spec 3 (deadFrame 2)).2.1,
   (simulate_phenotype_spec 3 (deadFrame 2)).2.2 0 (by decide)⟩

/-- C3: with CROSSOVER_RATE = 0 and MUTATION_RATE = 0,
`breed_population` returns exact copies of the input genotypes indexed by
`parent_selections`, for every value of `mate_selections` (of the common
selection length) and whatever the random stream supplies. -/
theorem breed_population_zero_rates (rng : Nat → PairRng)
    (g : List Genotype) (ps ms : List Nat) (hlen : ps.length = ms.length) :
    breed_population 0 0 rng g ps ms =
      ps.map (fun p => g.getD p default) := by
  unfold breed_population
  rw [breedPairs_zero]
  have h1 : (ps.zip ms).map (fun pr => g.getD pr.1 default)
      = ((ps.zip ms).map Prod.fst).map (fun p => g.getD p default) := by
    rw [List.map_map]
    rfl
  rw [h1, List.map_fst_zip ps ms (le_of_eq hlen)]

theorem breed_population_zero_rates_witness :
    ([1, 0] : List Nat).length = ([0, 1] : List Nat).length ∧
    breed_population 0 0 testRng [gA, gB] [1, 0] [0, 1] =
      ([1, 0] : List Nat).map (fun p => [gA, gB].getD p default) :=
  ⟨rfl, breed_population_zero_rates testRng [gA, gB] [1, 0] [0, 1] rfl⟩

/-- C4 (counterexample): the exposed `breed_population` binding does NOT
always return as many genotypes as the selection arrays are long: with a
`(1, 1, 1)`-shaped input population and selection arrays of length 2, the
output holds 1 genotype, not 2. -/
theorem breed_population_binding_count_counterexample :
    ¬ ((breed_population_binding 0 0 testRng cArr [0, 0] [0, 0]).length =
        ([0, 0] : List Nat).length) := by
  decide

/-- C4 (amended): the engine's `breed_population` produces one genotype
per `(parent, mate)` index pair, but the binding wraps its buffer in an
array of the INPUT population's shape, so the exposed output always holds
`s * t * o` genotypes; the two counts coincide — and the output is then
exactly the engine's one-genotype-per-pair buffer — precisely when the
selections' common length equals the population size. -/
theorem breed_population_binding_count (cr mr : ℚ) (rng : Nat → PairRng)
    (g : GenotypeArray3) (ps ms : List Nat) :
    (breed_population_binding cr mr rng g ps ms).length = g.s * g.t * g.o ∧
    (ps.length = ms.length →
      (breed_population cr mr rng g.data ps ms).length = ps.length) ∧
    (ps.length = ms.length → ps.length = g.s * g.t * g.o →
      breed_population_binding cr mr rng g ps ms =
        (breed_population cr mr rng g.data ps ms).map some) := by
  have hcore : ∀ _h : ps.length = ms.length,
      (breed_population cr mr rng g.data ps ms).length = ps.length := by
    intro h
    unfold breed_population
    rw [breedPairs_length, List.length_zip, h, Nat.min_self]
  refine ⟨by simp [breed_population_binding], hcore, ?_⟩
  intro h1 h2
  unfold breed_population_binding
  have h3 : g.s * g.t * g.o =
      (breed_population cr mr rng g.data ps ms).length := by
    rw [hcore h1, ← h2]
  rw [h3]
  exact range_map_getQ _

theorem breed_population_binding_count_witness :
    ([0, 1] : List Nat).length = ([1, 0] : List Nat).length ∧
    ([0, 1] : List Nat).length = wArr.s * wArr.t * wArr.o ∧
    breed_population_binding 0 0 testRng wArr [0, 1] [1, 0] =
      (breed_population 0 0 testRng wArr.data [0, 1] [1, 0]).map some :=
  ⟨rfl, by decide,
   (breed_population_binding_count 0 0 testRng wArr [0, 1] [1, 0]).2.2
     rfl (by decide)⟩

/-- C5: `render_phenotype`, `simulate_phenotype` and `simulate_organism`
are deterministic pure functions: two calls on identical inputs agree
bit-for-bit whatever the hidden engine state is, and no call changes that
state. -/
theorem kernel_free_functions_pure (W S K : Nat) (env1 env2 : KernelEnv)
    (p : PhenotypeProgram) (g : Genotype) (f : Frame W) :
    (render_phenotype_call W S env1 p).1 =
      (render_phenotype_call W S env2 p).1 ∧
    (render_phenotype_call W S env1 p).2 = env1 ∧
    (simulate_phenotype_call W K env1 f).1 =
      (simulate_phenotype_call W K env2 f).1 ∧
    (simulate_phenotype_call W K env1 f).2 = env1 ∧
    (simulate_organism_call W S K env1 p g).1 =
      (simulate_organism_call W S K env2 p g).1 ∧
    (simulate_organism_call W S K env1 p g).2 = env1 :=
  ⟨rfl, rfl, rfl, rfl, rfl, rfl⟩

/-- C6: `select` returns two index arrays of equal length whose every
element lies in `[0, population_size)`, the population size being the
length of the input fitness-score array. -/
theorem select_spec (scores : List Nat) (stream : Nat → Nat)
    (h : 0 < scores.length) :
    (select scores stream).1.length = (select scores stream).2.length ∧
    (∀ x ∈ (select scores stream).1, x < scores.length) ∧
    (∀ x ∈ (select scores stream).2, x < scores.length) := by
  refine ⟨by simp [select], ?_, ?_⟩ <;>
  · intro x hx
    simp only [select, List.mem_map, List.mem_range] at hx
    obtain ⟨i, _, rfl⟩ := hx
    exact tourney_lt scores _ _ h

theorem select_spec_witness :
    0 < ([5, 3] : List Nat).length ∧
    ((select [5, 3] (fun n => n)).1.length =
        (select [5, 3] (fun n => n)).2.length ∧
      (∀ x ∈ (select [5, 3] (fun n => n)).1,
        x < ([5, 3] : List Nat).length) ∧
      (∀ x ∈ (select [5, 3] (fun n => n)).2,
        x < ([5, 3] : List Nat).length)) :=
  ⟨by decide, select_spec [5, 3] (fun n => n) (by decide)⟩

/-- C7: `evolve(programs, goal, 0)` is exactly `populate(programs)`: zero
generations run no selection or breeding and overwrite no genotype, so the
genotypes equal those freshly populated. -/
theorem evolve_zero_generations {W : Nat} (S K G C : Nat) (cr mr : ℚ)
    (programs : List PhenotypeProgram) (goal : FitnessGoal)
    (st : SimState W) :
    Simulator.evolve S K G C cr mr programs goal 0 st =
      Simulator.populate G C programs st ∧
    (Simulator.evolve S K G C cr mr programs goal 0 st).genotypes =
      (Simulator.populate G C programs st).genotypes :=
  ⟨rfl, rfl⟩

/-- C8: the `simulate_and_record` binding returns a `Cell` array of shape
`(num_species, num_trials, num_organisms, NUM_STEPS, WORLD_SIZE,
WORLD_SIZE)` from the simulator's count fields, and its data holds the
full per-step history of every population slot. -/
theorem simulate_and_record_binding_spec {W : Nat} (K : Nat)
    (goal : FitnessGoal) (st : SimState W)
    (hf : st.frames.length =
      st.num_species.toNat * st.num_trials.toNat * st.num_organisms.toNat) :
    (simulate_and_record_binding K goal st).1.shape =
      [st.num_species, st.num_trials, st.num_organisms,
        (K : Int), (W : Int), (W : Int)] ∧
    (simulate_and_record_binding K goal st).1.data.length =
      st.num_species.toNat * st.num_trials.toNat * st.num_organisms.toNat *
        (K * (W * W)) := by
  refine ⟨rfl, ?_⟩
  rw [record_data_length, hf]

theorem simulate_and_record_binding_spec_witness :
    wSt.frames.length =
      wSt.num_species.toNat * wSt.num_trials.toNat * wSt.num_organisms.toNat ∧
    ((simulate_and_record_binding 2 FitnessGoal.EXPLODE wSt).1.shape =
      [wSt.num_species, wSt.num_trials, wSt.num_organisms,
        ((2 : Nat) : Int), ((2 : Nat) : Int), ((2 : Nat) : Int)] ∧
    (simulate_and_record_binding 2 FitnessGoal.EXPLODE wSt).1.data.length =
      wSt.num_species.toNat * wSt.num_trials.toNat * wSt.num_organisms.toNat *
        (2 * (2 * 2))) :=
  ⟨by decide, simulate_and_record_binding_spec 2 FitnessGoal.EXPLODE wSt
    (by decide)⟩

/-- C9: constructing a `Simulator` fails fast — an error is reported and
no state is produced — whenever any of the three population counts is
non-positive; with positive counts construction succeeds and every buffer
is allocated at the population size. -/
theorem construct_spec (W : Nat) (s t o : Int) :
    ((s ≤ 0 ∨ t ≤ 0 ∨ o ≤ 0) →
      Simulator.construct W s t o =
        Except.error "population counts must be positive") ∧
    (0 < s → 0 < t → 0 < o →
      ∃ st : SimState W, Simulator.construct W s t o = Except.ok st ∧
        st.num_species = s ∧ st.num_trials = t ∧ st.num_organisms = o ∧
        st.size = s * t * o ∧
        st.genotypes.length = (s * t * o).toNat ∧
        st.frames.length = (s * t * o).toNat ∧
        st.fitness.length = (s * t * o).toNat) := by
  constructor
  · intro h
    unfold Simulator.construct
    rw [if_pos h]
  · intro hs ht ho
    unfold Simulator.construct
    rw [if_neg (by push_neg; exact ⟨hs, ht, ho⟩)]
    exact ⟨_, rfl, rfl, rfl, rfl, rfl, List.length_replicate _ _,
      List.length_replicate _ _, List.length_replicate _ _⟩

theorem construct_spec_witness :
    Simulator.construct 2 0 1 1 =
      Except.error "population counts must be positive" ∧
    (∃ st : SimState 2, Simulator.construct 2 1 1 2 = Except.ok st ∧
      st.num_species = 1 ∧ st.num_trials = 1 ∧ st.num_organisms = 2 ∧
      st.size = 1 * 1 * 2 ∧
      st.genotypes.length = ((1 : Int) * 1 * 2).toNat ∧
      st.frames.length = ((1 : Int) * 1 * 2).toNat ∧
      st.fitness.length = ((1 : Int) * 1 * 2).toNat) :=
  ⟨(construct_spec 2 0 1 1).1 (Or.inl le_rfl),
   (construct_spec 2 1 1 2).2 (by decide) (by decide) (by decide)⟩

/-- C10: the simulator's `num_species`, `num_trials`, `num_organisms` and
`size` attributes are constant after construction: no operation (`seed`,
`populate`, `propagate`, `simulate`, `simulate_and_record`, `evolve`)
changes them — the binding exposes them read-only and defines no setter —
and every snapshot accessor is shaped by exactly these fields. -/
theorem simulator_attrs_constant {W : Nat} (S K G C : Nat) (cr mr : ℚ)
    (v : Nat) (programs : List PhenotypeProgram) (goal : FitnessGoal)
    (n : Nat) (st : SimState W) :
    counts (Simulator.seed v st) = counts st ∧
    counts (Simulator.populate G C programs st) = counts st ∧
    counts (Simulator.propagate S st) = counts st ∧
    counts (Simulator.simulate K goal st) = counts st ∧
    counts (Simulator.simulate_and_record K goal st).2 = counts st ∧
    counts (Simulator.evolve S K G C cr mr programs goal n st) = counts st ∧
    (get_fitness_scores_binding st).shape =
      [st.num_species, st.num_trials, st.num_organisms] ∧
    (get_genotypes_binding st).shape =
      [st.num_species, st.num_trials, st.num_organisms] ∧
    (simulate_and_record_binding K goal st).1.shape =
      [st.num_species, st.num_trials, st.num_organisms,
        (K : Int), (W : Int), (W : Int)] :=
  ⟨rfl, rfl, rfl, rfl, rfl,
   runGenerations_counts S K cr mr goal n (Simulator.populate G C programs st),
   rfl, rfl, rfl⟩

end EpigeneticGol
